import Mathlib

/-!
Verification of the Asset-Dashboard FK-inference scripts.

This file gives a shallow embedding of the three Python source files

  * src/fetch_data.py   (value-overlap FK finder and the stringify helper)
  * src/analyze.py      (schema-name FK candidate finder and path extractor)
  * src/verify_fks.py   (FK verification over fetched collections)

and proves properties of the embedded definitions.  JSON values are
modelled by the inductive type JValue below; Python dicts are modelled as
association lists in insertion order (Python 3.7+ dicts iterate in
insertion order), Python sets as duplicate-free lists in insertion order
(Python set iteration order is unspecified; only sizes, emptiness and
membership of these sets are relied on by the theorems).  JSON numbers are
modelled as integers: none of the verified properties concern floating
point values.
-/

/-- A JSON value as manipulated by the Python scripts.  Python dicts are
association lists in insertion order. -/
inductive JValue where
  | null
  | bool (b : Bool)
  | int (n : Int)
  | str (s : String)
  | arr (xs : List JValue)
  | obj (kvs : List (String × JValue))
deriving Repr

/-- Python d.get(k): the value of the first binding of k, if any.
JSON-decoded dicts never hold a key twice. -/
def pyGet (kvs : List (String × JValue)) (k : String) : Option JValue :=
  (kvs.find? (fun p => p.1 == k)).map Prod.snd

/-- Python isinstance(v, dict). -/
def isDict : JValue → Bool
  | JValue.obj _ => true
  | _ => false

/-- Tests whether a value is the JSON null (Python None). -/
def isNullV : JValue → Bool
  | JValue.null => true
  | _ => false

/-- Lower-cases the ASCII letters of a string, as Python str.lower does on
ASCII input (the scripts only handle ASCII identifiers). -/
def lowerStr (s : String) : String :=
  String.mk (s.data.map Char.toLower)

/-- Does the first character list occur at the head of the second. -/
def headMatches : List Char → List Char → Bool
  | [], _ => true
  | _ :: _, [] => false
  | a :: as, b :: bs => a == b && headMatches as bs

/-- Does the first character list occur contiguously inside the second. -/
def subListOf (needle : List Char) : List Char → Bool
  | [] => headMatches needle []
  | c :: t => headMatches needle (c :: t) || subListOf needle t

/-- Python substring test: needle in hay. -/
def pyInStr (needle hay : String) : Bool :=
  subListOf needle.data hay.data

/-- Python s.endswith(suf). -/
def endsWithStr (s suf : String) : Bool :=
  headMatches suf.data.reverse s.data.reverse

/-- Python s.startswith(pre in the source text). -/
def startsWithStr (s suf : String) : Bool :=
  headMatches suf.data s.data

/-- Python s[:n] (strings in the scripts are ASCII). -/
def takeStr (n : Nat) (s : String) : String :=
  String.mk (s.data.take n)

/-- The single-quote character, used by the model of Python repr. -/
def squote : Char := Char.ofNat 39

/-- Joins rendered pieces with a separator, as str.join does. -/
def joinSep (sep : String) : List String → String
  | [] => ""
  | [x] => x
  | x :: xs => x ++ sep ++ joinSep sep xs

/-- Escapes one character of a Python string literal for repr output.
Models CPython repr for the printable ASCII range together with the
common whitespace escapes. -/
def pyReprEscapeChar (q c : Char) : String :=
  if c == '\\' then "\\\\"
  else if c == q then "\\" ++ String.mk [q]
  else if c == '\n' then "\\n"
  else if c == '\t' then "\\t"
  else if c == '\r' then "\\r"
  else String.mk [c]

/-- Models CPython repr of a str: single-quoted, switching to double
quotes when the text holds a single quote but no double quote. -/
def pyReprStr (s : String) : String :=
  let q := if s.data.contains squote && !(s.data.contains '"') then '"' else squote
  String.mk [q] ++ joinSep "" (s.data.map (pyReprEscapeChar q)) ++ String.mk [q]

mutual
/-- Models CPython repr of a JSON-decoded value (None, bools, ints,
strings, lists, dicts). -/
def pyRepr : JValue → String
  | JValue.null => "None"
  | JValue.bool b => if b then "True" else "False"
  | JValue.int n => toString n
  | JValue.str s => pyReprStr s
  | JValue.arr xs => "[" ++ joinSep ", " (pyReprList xs) ++ "]"
  | JValue.obj kvs => "\x7b" ++ joinSep ", " (pyReprKVs kvs) ++ "\x7d"

/-- repr of the elements of a list, in order. -/
def pyReprList : List JValue → List String
  | [] => []
  | v :: vs => pyRepr v :: pyReprList vs

/-- repr of the bindings of a dict, in insertion order. -/
def pyReprKVs : List (String × JValue) → List String
  | [] => []
  | p :: rest => (pyReprStr p.1 ++ ": " ++ pyRepr p.2) :: pyReprKVs rest
end

/-- Models CPython str() of a JSON-decoded value: identical to repr
except on strings, which are returned unquoted. -/
def pyStr : JValue → String
  | JValue.str s => s
  | JValue.arr xs => pyRepr (JValue.arr xs)
  | JValue.obj kvs => pyRepr (JValue.obj kvs)
  | JValue.null => "None"
  | JValue.bool b => if b then "True" else "False"
  | JValue.int n => toString n

/-- Renders a Nat as four lowercase hex digits, for json.dumps escapes. -/
def hex4 (n : Nat) : String :=
  String.mk [Nat.digitChar (n / 4096 % 16), Nat.digitChar (n / 256 % 16),
             Nat.digitChar (n / 16 % 16), Nat.digitChar (n % 16)]

/-- Escapes one character of a JSON string per json.dumps with its
default ensure_ascii=True (astral characters would use surrogate pairs
in CPython; the scripts only meet identifiers inside the basic plane). -/
def jsonEscapeChar (c : Char) : String :=
  if c == '"' then "\\\""
  else if c == '\\' then "\\\\"
  else if c == '\n' then "\\n"
  else if c == '\t' then "\\t"
  else if c == '\r' then "\\r"
  else if c.toNat < 32 || c.toNat > 126 then "\\u" ++ hex4 (c.toNat % 65536)
  else String.mk [c]

/-- json.dumps of a string, quotes included. -/
def jsonDumpStr (s : String) : String :=
  "\"" ++ joinSep "" (s.data.map jsonEscapeChar) ++ "\""

/-- Stable insertion into a key-sorted list of rendered dict entries,
modelling the ordering effect of sort_keys=True. -/
def insertByKey (p : String × String) : List (String × String) → List (String × String)
  | [] => [p]
  | q :: rest => if p.1 < q.1 then p :: q :: rest else q :: insertByKey p rest

/-- Sorts rendered dict entries by key (Python sorts str by code point). -/
def sortByKey : List (String × String) → List (String × String)
  | [] => []
  | p :: rest => insertByKey p (sortByKey rest)

mutual
/-- Models json.dumps(v, sort_keys=True) with the default separators,
as called by stringify in src/fetch_data.py. -/
def jsonDumps : JValue → String
  | JValue.null => "null"
  | JValue.bool b => if b then "true" else "false"
  | JValue.int n => toString n
  | JValue.str s => jsonDumpStr s
  | JValue.arr xs => "[" ++ joinSep ", " (jsonDumpsList xs) ++ "]"
  | JValue.obj kvs =>
      "\x7b" ++
        joinSep ", " ((sortByKey (jsonDumpsKVs kvs)).map
          (fun p => jsonDumpStr p.1 ++ ": " ++ p.2)) ++ "\x7d"

/-- json.dumps of the elements of a list, in order. -/
def jsonDumpsList : List JValue → List String
  | [] => []
  | v :: vs => jsonDumps v :: jsonDumpsList vs

/-- json.dumps of each dict value, keeping the keys for later sorting. -/
def jsonDumpsKVs : List (String × JValue) → List (String × String)
  | [] => []
  | p :: rest => (p.1, jsonDumps p.2) :: jsonDumpsKVs rest
end

/-- The id-like keys probed by stringify for dict values, in source
order (src/fetch_data.py line 202). -/
def idKeyList : List String :=
  ["id", "_id", "Id", "ID", "serial_number", "asset_rfid_tag", "rfid", "serial"]

/-- The loop of the dict branch of stringify: the value of the first
id-like key that is present and not None. -/
def firstIdHit : List String → List (String × JValue) → Option JValue
  | [], _ => none
  | k :: ks, kvs =>
      match pyGet kvs k with
      | some w => if isNullV w then firstIdHit ks kvs else some w
      | none => firstIdHit ks kvs

/-- Embeds stringify from src/fetch_data.py lines 189 to 212: a stable
string for set-membership comparison.  The try/except around json.dumps
is omitted: dumps never raises on JSON-decoded input. -/
def stringify : JValue → String
  | JValue.null => "<null>"
  | JValue.str s => s
  | JValue.int n => toString n
  | JValue.bool b => if b then "True" else "False"
  | JValue.obj kvs =>
      match firstIdHit idKeyList kvs with
      | some w => pyStr w
      | none => jsonDumps (JValue.obj kvs)
  | JValue.arr xs => jsonDumps (JValue.arr xs)

example : stringify (JValue.int 7) = "7" := rfl
example : stringify (JValue.str "7") = "7" := rfl
example : stringify JValue.null = "<null>" := rfl
example : stringify (JValue.obj [("id", JValue.int 3), ("x", JValue.null)]) = "3" := rfl
example : stringify (JValue.obj [("b", JValue.int 3)]) = "\x7b\"b\": 3\x7d" := rfl
example : stringify (JValue.arr [JValue.int 1, JValue.str "a"]) = "[1, \"a\"]" := rfl

/-! ## The value-overlap FK finder of src/fetch_data.py -/

/-- Inserts a string into a modelled Python set of strings: kept only
when not already present, at the end (insertion order). -/
def strSetAdd (acc : List String) (s : String) : List String :=
  if acc.contains s then acc else acc ++ [s]

/-- Deduplicates a list of strings in insertion order, modelling
accumulation into a Python set of strings. -/
def strSetOfList (l : List String) : List String :=
  l.foldl strSetAdd []

/-- Embeds normalize_id_field from src/fetch_data.py lines 118 to 127:
the identifier key of a record, trying id, _id, Id, ID first, then any
key ending in _id or id. -/
def normalize_id_field (kvs : List (String × JValue)) : Option String :=
  match ["id", "_id", "Id", "ID"].find? (fun k => (pyGet kvs k).isSome) with
  | some k => some k
  | none =>
      kvs.find? (fun p =>
        endsWithStr (lowerStr p.1) "_id" || endsWithStr (lowerStr p.1) "id")
        |>.map Prod.fst

/-- Embeds collect_ids from src/fetch_data.py lines 130 to 138: the set
of stringified identifier values of the records of a collection. -/
def collect_ids (items : List JValue) : List String :=
  strSetOfList (items.filterMap (fun it =>
    match it with
    | JValue.obj kvs =>
        match normalize_id_field kvs with
        | some k =>
            match pyGet kvs k with
            | some w => if isNullV w then none else some (stringify w)
            | none => none
        | none => none
    | _ => none))

/-- One candidate row appended by find_fk_candidates.  matchCount
renders the dict entry named matches in the source (matches is a
reserved word in Lean). -/
structure OverlapCand where
  from_collection : String
  field : String
  to_collection : String
  matchCount : Nat
  sample_matches : List String
  name_match : Bool
deriving DecidableEq, Repr

/-- The per-field value set of find_fk_candidates (src/fetch_data.py
lines 157 to 163): stringified non-null values of the field over the
dict records of the item list. -/
def fieldVals (aItems : List JValue) (field : String) : List String :=
  strSetOfList (aItems.filterMap (fun it =>
    match it with
    | JValue.obj kvs =>
        match pyGet kvs field with
        | some w => if isNullV w then none else some (stringify w)
        | none => none
    | _ => none))

/-- The set intersection vals.intersection(ids) of src/fetch_data.py
line 170, as the sublist of the value set present in the id set. -/
def interVals (vals ids : List String) : List String :=
  vals.filter (fun v => ids.contains v)

/-- The inner loop of find_fk_candidates over all collection id sets
(src/fetch_data.py lines 166 to 185): one candidate per collection
whose id set meets the value set. -/
def overlapForField (aName field : String) (vals : List String)
    (colIds : List (String × List String)) : List OverlapCand :=
  colIds.filterMap (fun p =>
    if p.2.isEmpty then none
    else if (interVals vals p.2).isEmpty then none
    else
      some
        { from_collection := aName
          field := field
          to_collection := p.1
          matchCount := (interVals vals p.2).length
          sample_matches := (interVals vals p.2).take 5
          name_match :=
            (endsWithStr (lowerStr field) "_id" &&
               startsWithStr (lowerStr field) (takeStr 3 (lowerStr p.1))) ||
            (pyInStr (lowerStr p.1) (lowerStr field) ||
               pyInStr (lowerStr field) (lowerStr p.1)) })

/-- The field loop of src/fetch_data.py lines 152 to 185: for every
field of the sample record, skipping the id fields, the candidates of
its value set over the collection id sets. -/
def overlapScan (aName : String) (aItems : List JValue)
    (kvs : List (String × JValue)) (colIds : List (String × List String)) :
    List OverlapCand :=
  (kvs.map Prod.fst).flatMap (fun field =>
    if lowerStr field == "id" || lowerStr field == "_id" then []
    else if (fieldVals aItems field).isEmpty then []
    else overlapForField aName field (fieldVals aItems field) colIds)

/-- The precomputed per-collection id sets col_ids of src/fetch_data.py
line 144. -/
def colIdsOf (cols : List (String × List JValue)) : List (String × List String) :=
  cols.map (fun p => (p.1, collect_ids p.2))

/-- The residual value of the name sample after the first loop of
find_fk_candidates: none when never assigned, some none when the last
assignment on line 149 found no dict record. -/
def sampleState (cols : List (String × List JValue)) : Option (Option JValue) :=
  cols.foldl (fun st p => if p.2.isEmpty then st else some (p.2.find? isDict)) none

/-- Embeds find_fk_candidates from src/fetch_data.py lines 141 to 186,
faithfully reproducing its mis-indented loop: the loop for field in
sample.keys() on line 152 sits outside the loop over collections that
starts on line 146, so after that first loop only the bindings of its
final iteration remain (a_name and a_items are the last collection;
sample is the value last assigned on line 149).  When no iteration
reaches line 149 the name sample is unbound and Python raises NameError;
when the last assignment left sample = None, line 152 raises
AttributeError.  Both failures are modelled by none. -/
def find_fk_candidates (cols : List (String × List JValue)) :
    Option (List OverlapCand) :=
  match cols.getLast?, sampleState cols with
  | some last, some (some (JValue.obj kvs)) =>
      some (overlapScan last.1 last.2 kvs (colIdsOf cols))
  | _, _ => none

example :
    find_fk_candidates
      [("Asset", [JValue.obj [("id", JValue.int 1), ("Building_Id", JValue.int 10)]]),
       ("Buildings", [JValue.obj [("id", JValue.int 10)]])] = some [] := rfl

example :
    find_fk_candidates
      [("Buildings", [JValue.obj [("id", JValue.int 10)]]),
       ("Asset", [JValue.obj [("id", JValue.int 1), ("Building_Id", JValue.int 10)]])]
      = some [⟨"Asset", "Building_Id", "Buildings", 1, ["10"], true⟩] := rfl

example :
    find_fk_candidates [("A", [JValue.obj [("id", JValue.int 1), ("x", JValue.int 1)]])]
      = some [⟨"A", "x", "A", 1, ["1"], false⟩] := rfl

/-! ## The schema-name FK candidate finder of src/analyze.py -/

namespace Analyze

/-- Embeds normalize from src/analyze.py lines 61 to 62: lower-case the
name and drop every character outside 0-9 and a-z. -/
def normalize (name : String) : String :=
  String.mk ((name.data.map Char.toLower).filter
    (fun c => c.isDigit || (decide ('a' ≤ c) && decide (c ≤ 'z'))))

/-- Inserts a binding into a modelled Python dict of strings: a later
binding of an existing key overwrites in place, a new key goes last. -/
def dictUpsert (m : List (String × String)) (k v : String) :
    List (String × String) :=
  if m.any (fun p => p.1 == k) then
    m.map (fun p => if p.1 == k then (k, v) else p)
  else m ++ [(k, v)]

/-- The dict comprehension norm_to_schema of src/analyze.py line 104,
iterated in schema insertion order. -/
def buildNormMap (keys : List String) : List (String × String) :=
  keys.foldl (fun m k => dictUpsert m (normalize k) k) []

/-- Dict lookup in the modelled norm_to_schema map. -/
def lookupStr (m : List (String × String)) (k : String) : Option String :=
  (m.find? (fun p => p.1 == k)).map Prod.snd

/-- The containment test of src/analyze.py line 120: either name occurs
inside the other. -/
def mutualContains (a b : String) : Bool :=
  pyInStr a b || pyInStr b a

/-- The direct matching loop of src/analyze.py lines 119 to 121: the
first entry of norm_to_schema, in its iteration order, whose normalized
name overlaps the normalized property name by containment. -/
def directMatch (m : List (String × String)) (propNorm : String) : Option String :=
  (m.find? (fun p => mutualContains p.1 propNorm)).map Prod.snd

/-- The suffix strip of src/analyze.py line 127: the regex
(_id|_Id|Id)$ with IGNORECASE removes a trailing _id (three characters)
or otherwise a trailing id (two characters), in any casing. -/
def stripIdSuffix (prop : String) : String :=
  if endsWithStr (lowerStr prop) "_id" then takeStr (prop.length - 3) prop
  else if endsWithStr (lowerStr prop) "id" then takeStr (prop.length - 2) prop
  else prop

/-- The fallback heuristics of src/analyze.py lines 125 to 140: match
the suffix-stripped name, else its singular when it ends in s, else its
plural. -/
def suffixMatch (m : List (String × String)) (prop : String) : Option String :=
  let clean := stripIdSuffix prop
  match lookupStr m (normalize clean) with
  | some c => some c
  | none =>
      if endsWithStr clean "s" then
        lookupStr m (normalize (takeStr (clean.length - 1) clean))
      else lookupStr m (normalize (clean ++ "s"))

/-- Looks up the related-entity list of a schema, modelling the checks
sname in api_relationships of src/analyze.py lines 144 and 164.  The
Python value is a set; its iteration order is taken from the list. -/
def lookupRels (rels : List (String × List String)) (sname : String) :
    Option (List String) :=
  (rels.find? (fun p => p.1 == sname)).map Prod.snd

/-- The API-path confirmation loop of src/analyze.py lines 147 to 151:
the first related entity whose normalized name overlaps the property
name by containment. -/
def apiConfirm (related : List String) (propNorm : String) : Option String :=
  related.find? (fun rel => mutualContains (normalize rel) propNorm)

/-- One candidate record appended by find_candidate_fks.  fromSchema
renders the dict entry named from in the source (from is a reserved
word in Lean). -/
structure FkGuess where
  fromSchema : String
  field : String
  to_guess : Option String
  typeName : Option String
  confirmed_by_api : Bool
  source : String
deriving DecidableEq, Repr

/-- A schema definition as read by find_candidate_fks: its property
names with the type entry of each property definition, the only parts
of the schema the analyzer reads. -/
structure SchemaDef where
  properties : List (String × Option String)
deriving DecidableEq, Repr

/-- The API-path confirmation of src/analyze.py lines 142 to 151: when
the schema has related entities and one overlaps the property name, it
replaces the match and sets confirmed_by_api. -/
def apiResolve (apiRels : List (String × List String)) (sname propNorm : String)
    (m1 : Option String) : Option String × Bool :=
  match lookupRels apiRels sname with
  | some related =>
      match apiConfirm related propNorm with
      | some rel => (some rel, true)
      | none => (m1, false)
  | none => (m1, false)

/-- The body of the property loop of src/analyze.py lines 112 to 161:
the candidate record for one property, empty when the property name
does not contain id.  The set identified_fks of the source is written
and never read, so it is not modelled. -/
def fieldCandidate (normMap : List (String × String))
    (apiRels : List (String × List String)) (sname prop : String)
    (ptype : Option String) : List FkGuess :=
  if pyInStr "id" (lowerStr prop) then
    let propNorm := normalize prop
    let m1 := match directMatch normMap propNorm with
      | some c => some c
      | none => suffixMatch normMap prop
    let mc := apiResolve apiRels sname propNorm m1
    [{ fromSchema := sname
       field := prop
       to_guess := mc.1
       typeName := ptype
       confirmed_by_api := mc.2
       source := if mc.2 then "api_path" else "field_name" }]
  else []

/-- The api_path_only pass of src/analyze.py lines 163 to 182: for each
related entity of the schema not already present among all results so
far, append a relation-only record. -/
def addApiOnly (apiRels : List (String × List String)) (sname : String)
    (acc : List FkGuess) : List FkGuess :=
  match lookupRels apiRels sname with
  | none => acc
  | some related =>
      related.foldl (fun acc2 rel =>
        if acc2.any (fun fk => fk.fromSchema == sname && fk.to_guess == some rel)
        then acc2
        else acc2 ++
          [{ fromSchema := sname
             field := "<relation to " ++ rel ++ ">"
             to_guess := some rel
             typeName := some "relation"
             confirmed_by_api := true
             source := "api_path_only" }]) acc

/-- Embeds find_candidate_fks from src/analyze.py lines 100 to 184:
candidates from field names and from API relationship paths, appended
schema by schema in iteration order.  norm_to_schema, computed once on
line 104, is pure, so passing its defining expression at each use is
the same mapping. -/
def find_candidate_fks (schemas : List (String × SchemaDef))
    (apiRels : List (String × List String)) : List FkGuess :=
  schemas.foldl (fun acc p =>
    addApiOnly apiRels p.1
      (acc ++ p.2.properties.flatMap
        (fun q =>
          fieldCandidate (buildNormMap (schemas.map Prod.fst)) apiRels p.1 q.1 q.2))) []

example :
    find_candidate_fks
      [("Asset", ⟨[("Building_Id", some "integer")]⟩), ("Buildings", ⟨[]⟩)] []
      = [⟨"Asset", "Building_Id", some "Buildings", some "integer", false, "field_name"⟩] := rfl

example :
    find_candidate_fks
      [("Id", ⟨[]⟩), ("Building", ⟨[]⟩), ("S", ⟨[("Building_Id", some "integer")]⟩)] []
      = [⟨"S", "Building_Id", some "Id", some "integer", false, "field_name"⟩] := rfl

end Analyze

/-! ## The path relationship extractor of src/analyze.py -/

/-- The opening brace character. -/
def lbrace : Char := Char.ofNat 123

/-- The closing brace character. -/
def rbrace : Char := Char.ofNat 125

/-- Splits a character list into its maximal initial run of characters
satisfying p and the remainder. -/
def takeRun (p : Char → Bool) : List Char → (List Char × List Char)
  | [] => ([], [])
  | c :: t =>
      if p c then
        let r := takeRun p t
        (c :: r.1, r.2)
      else ([], c :: t)

/-- Embeds the regex match of src/analyze.py line 47 applied to one
path template.  re.match anchors at the start and leaves the tail free;
each character class of the pattern excludes its own terminator, so the
greedy runs are the maximal runs taken here. -/
def pathRelMatch (s : String) : Option (String × String) :=
  match s.data with
  | c0 :: r0 =>
      if c0 == '/' then
        let t1 := takeRun (fun ch => !(ch == '/')) r0
        if t1.1.isEmpty then none
        else
          match t1.2 with
          | c1 :: r1 =>
              if c1 == '/' then
                match r1 with
                | c2 :: r2 =>
                    if c2 == lbrace then
                      let t2 := takeRun (fun ch => !(ch == rbrace)) r2
                      if t2.1.isEmpty then none
                      else
                        match t2.2 with
                        | c3 :: r3 =>
                            if c3 == rbrace then
                              match r3 with
                              | c4 :: r4 =>
                                  if c4 == '/' then
                                    let t3 := takeRun
                                      (fun ch => !(ch == ':') && !(ch == '/')) r4
                                    if t3.1.isEmpty then none
                                    else
                                      match t3.2 with
                                      | c5 :: _ =>
                                          if c5 == ':' then
                                            some (String.mk t1.1, String.mk t3.1)
                                          else none
                                      | [] => none
                                  else none
                              | [] => none
                            else none
                        | [] => none
                    else none
                | [] => none
              else none
          | [] => none
      else none
  | [] => none

/-- Adds one source-target pair to the modelled relationships dict of
sets (src/analyze.py lines 48 to 53). -/
def addRel (m : List (String × List String)) (src tgt : String) :
    List (String × List String) :=
  if m.any (fun p => p.1 == src) then
    m.map (fun p =>
      if p.1 == src then (p.1, if p.2.contains tgt then p.2 else p.2 ++ [tgt]) else p)
  else m ++ [(src, [tgt])]

/-- Embeds the path-relationship extraction of src/analyze.py lines 42
to 56 over the list of path template keys: each matching template adds
its target entity to the set of its source schema. -/
def extractPathRels (pathKeys : List String) : List (String × List String) :=
  pathKeys.foldl (fun m p =>
    match pathRelMatch p with
    | some st => addRel m st.1 st.2
    | none => m) []

example :
    extractPathRels ["/Asset/\x7bid\x7d/End_User:get"] = [("Asset", ["End_User"])] := rfl

example : extractPathRels ["/Asset/End_User:get"] = [] := rfl

/-! ## The FK verifier of src/verify_fks.py -/

mutual
/-- The number of nodes of a value, used to bound the recursion depth
of the Python equality model. -/
def jsize : JValue → Nat
  | JValue.arr xs => 1 + jsizeList xs
  | JValue.obj kvs => 1 + jsizeKVs kvs
  | _ => 1

/-- Combined size of the elements of a list. -/
def jsizeList : List JValue → Nat
  | [] => 0
  | v :: vs => 1 + jsize v + jsizeList vs

/-- Combined size of the values of a dict. -/
def jsizeKVs : List (String × JValue) → Nat
  | [] => 0
  | p :: rest => 1 + jsize p.2 + jsizeKVs rest
end

mutual
/-- Python == on JSON-decoded values, with a fuel argument bounding
recursion depth.  Python compares booleans as the integers 1 and 0,
numbers by value, strings by content, lists elementwise, and dicts as
unordered key-value mappings.  The fuel passed by pyEq exceeds every
possible recursion depth, so the fuel-exhausted false is never hit. -/
def pyEqFuel : Nat → JValue → JValue → Bool
  | 0, _, _ => false
  | f + 1, a, b =>
      match a, b with
      | JValue.null, JValue.null => true
      | JValue.bool x, JValue.bool y => x == y
      | JValue.bool x, JValue.int n => (if x then (1 : Int) else 0) == n
      | JValue.int n, JValue.bool x => n == (if x then (1 : Int) else 0)
      | JValue.int m, JValue.int n => m == n
      | JValue.str s, JValue.str t => s == t
      | JValue.arr xs, JValue.arr ys => pyEqListFuel f xs ys
      | JValue.obj xs, JValue.obj ys => pyEqKVsSub f xs ys && pyEqKVsSub f ys xs
      | _, _ => false

/-- Elementwise Python == on lists, under fuel. -/
def pyEqListFuel : Nat → List JValue → List JValue → Bool
  | 0, _, _ => false
  | _ + 1, [], [] => true
  | f + 1, x :: xs, y :: ys => pyEqFuel f x y && pyEqListFuel f xs ys
  | _ + 1, _, _ => false

/-- Every binding of the first dict has an equal value under the same
key in the second, under fuel. -/
def pyEqKVsSub : Nat → List (String × JValue) → List (String × JValue) → Bool
  | 0, _, _ => false
  | _ + 1, [], _ => true
  | f + 1, p :: rest, ys =>
      (match ys.find? (fun q => q.1 == p.1) with
       | some q => pyEqFuel f p.2 q.2
       | none => false) && pyEqKVsSub f rest ys
end

/-- Python == on JSON-decoded values. -/
def pyEq (a b : JValue) : Bool :=
  pyEqFuel (jsize a + jsize b + 1) a b

/-- Python membership of a value in a modelled set given as a list. -/
def pyMem (v : JValue) (l : List JValue) : Bool :=
  l.any (fun t => pyEq v t)

/-- Accumulates a list into a modelled Python set: first occurrence
kept, in insertion order, equality per Python ==. -/
def pyDedup (l : List JValue) : List JValue :=
  l.foldl (fun acc v => if pyMem v acc then acc else acc ++ [v]) []

/-- Whether a value may enter a Python set: lists and dicts are
unhashable and raise TypeError. -/
def hashable : JValue → Bool
  | JValue.arr _ => false
  | JValue.obj _ => false
  | _ => true

/-- The FK value extraction of src/verify_fks.py lines 80 to 89: the
non-null values of the field over the dict records, in order.  Like
item.get, a missing key counts as None. -/
def fkValuesOf (src : List JValue) (field : String) : List JValue :=
  src.filterMap (fun it =>
    match it with
    | JValue.obj kvs =>
        match pyGet kvs field with
        | some w => if isNullV w then none else some w
        | none => none
    | _ => none)

/-- The null counter of src/verify_fks.py lines 82 to 88: dict records
whose field value is None or missing. -/
def nullCountOf (src : List JValue) (field : String) : Nat :=
  (src.filter (fun it =>
    match it with
    | JValue.obj kvs =>
        match pyGet kvs field with
        | some w => isNullV w
        | none => true
    | _ => false)).length

/-- Embeds extract_ids from src/verify_fks.py lines 23 to 25: the set
of non-null id values of the dict records of a collection.  Unhashable
id values would raise TypeError while building the set, modelled by
none. -/
def extract_ids (coll : List JValue) : Option (List JValue) :=
  let raw := coll.filterMap (fun it =>
    match it with
    | JValue.obj kvs =>
        match pyGet kvs "id" with
        | some w => if isNullV w then none else some w
        | none => none
    | _ => none)
  if raw.all hashable then some (pyDedup raw) else none

/-- The fixed check list fk_checks of src/verify_fks.py lines 52 to 63. -/
def fk_checks : List (String × String × String) :=
  [("Asset", "Building_Id", "Buildings"),
   ("Asset", "Room_Id", "Rooms"),
   ("Asset", "SRB_Id", "SRB_Details"),
   ("Rooms", "Building_id", "Buildings"),
   ("Instance", "Asset_Id", "Asset"),
   ("Asset_Condition", "asset_id", "Asset"),
   ("Asset_Coverage_History", "Asset_Id", "Asset"),
   ("Asset_Specifications", "Asset_Id", "Asset"),
   ("SRB_Details", "Vendor_Id", "Vendor"),
   ("Purchase_Order_Details", "Vendor_Id", "Vendor")]

/-- Outcome of one check triple of the verifier.  The first three
constructors are the three cannot-verify reports of src/verify_fks.py
lines 71 to 93; scored carries the match set, the orphan set, the
deduplicated FK value set and the null count from which the printed
match percentage len(matches)/len(fk_set)*100 is computed. -/
inductive VerifyResult where
  | noSourceData
  | noTargetIds
  | allNull (nullCount : Nat)
  | scored (matched orphans fkSet : List JValue) (nullCount : Nat)
deriving Repr

/-- Embeds the body of the per-triple loop of src/verify_fks.py lines
67 to 128 as a function of the source records, the FK field name and
the extracted target id set.  Only a check whose field is Vendor_Id
converts the target ids to strings before intersecting (lines 98 to
106).  An unhashable FK value would raise TypeError at set(fk_values),
modelled by none. -/
def verifyCheck (sourceColl : List JValue) (fkField : String)
    (targetIds : List JValue) : Option VerifyResult :=
  if sourceColl.isEmpty then some VerifyResult.noSourceData
  else if targetIds.isEmpty then some VerifyResult.noTargetIds
  else
    let fkValues := fkValuesOf sourceColl fkField
    if fkValues.isEmpty then some (VerifyResult.allNull (nullCountOf sourceColl fkField))
    else if fkValues.all hashable then
      let fkSet := pyDedup fkValues
      if fkField == "Vendor_Id" then
        let targetStr := pyDedup (targetIds.map (fun x => JValue.str (pyStr x)))
        some (VerifyResult.scored
          (fkSet.filter (fun v => pyMem v targetStr))
          (fkSet.filter (fun v => !(pyMem v targetStr)))
          fkSet (nullCountOf sourceColl fkField))
      else
        some (VerifyResult.scored
          (fkSet.filter (fun v => pyMem v targetIds))
          (fkSet.filter (fun v => !(pyMem v targetIds)))
          fkSet (nullCountOf sourceColl fkField))
    else none

example :
    verifyCheck [JValue.obj [("Building_Id", JValue.str "10")]] "Building_Id" [JValue.int 10]
      = some (VerifyResult.scored [] [JValue.str "10"] [JValue.str "10"] 0) := rfl

example :
    verifyCheck [JValue.obj [("Vendor_Id", JValue.str "10")]] "Vendor_Id" [JValue.int 10]
      = some (VerifyResult.scored [JValue.str "10"] [] [JValue.str "10"] 0) := rfl

example : verifyCheck [] "x" [JValue.int 1] = some VerifyResult.noSourceData := rfl

example :
    verifyCheck [JValue.obj [("x", JValue.int 1)]] "x" [] = some VerifyResult.noTargetIds := rfl

example :
    verifyCheck [JValue.obj []] "x" [JValue.int 1] = some (VerifyResult.allNull 1) := rfl

/-! ## Support lemmas -/

lemma digitChar_isDigit {n : Nat} (h : n < 10) : (Nat.digitChar n).isDigit = true := by
  interval_cases n <;> decide

lemma toDigitsCore_all_digits :
    ∀ (fuel n : Nat) (acc : List Char), (∀ c ∈ acc, c.isDigit = true) →
      ∀ c ∈ Nat.toDigitsCore 10 fuel n acc, c.isDigit = true := by
  intro fuel
  induction fuel with
  | zero => intro n acc hacc c hc; exact hacc c hc
  | succ f ih =>
      intro n acc hacc c hc
      rw [Nat.toDigitsCore] at hc
      have hd : (Nat.digitChar (n % 10)).isDigit = true :=
        digitChar_isDigit (Nat.mod_lt _ (by decide))
      by_cases h10 : n / 10 = 0
      · simp only [h10, if_pos rfl] at hc
        rcases List.mem_cons.mp hc with h | h
        · exact h ▸ hd
        · exact hacc c h
      · simp only [if_neg h10] at hc
        refine ih (n / 10) (Nat.digitChar (n % 10) :: acc) ?_ c hc
        intro d hdm
        rcases List.mem_cons.mp hdm with h | h
        · exact h ▸ hd
        · exact hacc d h

lemma head_char_ne_sentinel (c : Char) (rest : List Char) (hc : ¬ c = '<') :
    String.mk (c :: rest) ≠ "<null>" := by
  intro h
  have h2 := congrArg String.data h
  have h3 : ("<null>" : String).data = '<' :: ['n', 'u', 'l', 'l', '>'] := rfl
  rw [h3] at h2
  injection h2 with h4 h5
  exact hc h4

lemma natRepr_ne_sentinel (n : Nat) : Nat.repr n ≠ "<null>" := by
  intro h
  have h2 := congrArg String.data h
  have h3 : (Nat.repr n).data = Nat.toDigits 10 n := rfl
  have h4 : ("<null>" : String).data = ['<', 'n', 'u', 'l', 'l', '>'] := rfl
  rw [h3, h4] at h2
  have h5 : ('<' : Char) ∈ Nat.toDigits 10 n := by rw [h2]; simp
  have h6 := toDigitsCore_all_digits (n + 1) n [] (by simp) '<' h5
  simp at h6

lemma int_toString_ne_sentinel (n : Int) : toString n ≠ "<null>" := by
  cases n with
  | ofNat m => exact natRepr_ne_sentinel m
  | negSucc m =>
      show "-" ++ Nat.repr (m + 1) ≠ "<null>"
      rcases hr : Nat.repr (m + 1) with ⟨l⟩
      exact head_char_ne_sentinel '-' l (by decide)

lemma strDataAppend (a b : String) : (a ++ b).data = a.data ++ b.data := by
  cases a; cases b; rfl

lemma wrapped_ne_sentinel (c : Char) (mid tail : String) (hc : ¬ c = '<') :
    String.mk [c] ++ mid ++ tail ≠ "<null>" := by
  intro h
  have h2 := congrArg String.data h
  rw [strDataAppend, strDataAppend] at h2
  have h3 : (String.mk [c]).data = [c] := rfl
  have h4 : ("<null>" : String).data = '<' :: ['n', 'u', 'l', 'l', '>'] := rfl
  rw [h3, h4] at h2
  simp only [List.cons_append, List.nil_append] at h2
  injection h2 with h5 h6
  exact hc h5

lemma pyRepr_arr_ne_sentinel (xs : List JValue) : pyRepr (JValue.arr xs) ≠ "<null>" := by
  simp only [pyRepr]
  exact wrapped_ne_sentinel '[' (joinSep ", " (pyReprList xs)) "]" (by decide)

lemma pyRepr_obj_ne_sentinel (kvs : List (String × JValue)) :
    pyRepr (JValue.obj kvs) ≠ "<null>" := by
  simp only [pyRepr]
  exact wrapped_ne_sentinel (Char.ofNat 123) (joinSep ", " (pyReprKVs kvs)) "\x7d" (by decide)

lemma jsonDumps_arr_ne_sentinel (xs : List JValue) :
    jsonDumps (JValue.arr xs) ≠ "<null>" := by
  simp only [jsonDumps]
  exact wrapped_ne_sentinel '[' (joinSep ", " (jsonDumpsList xs)) "]" (by decide)

lemma jsonDumps_obj_eq (kvs : List (String × JValue)) :
    jsonDumps (JValue.obj kvs) =
      "\x7b" ++
        joinSep ", " ((sortByKey (jsonDumpsKVs kvs)).map
          (fun p => jsonDumpStr p.1 ++ ": " ++ p.2)) ++ "\x7d" := by
  simp only [jsonDumps]

lemma jsonDumps_obj_ne_sentinel (kvs : List (String × JValue)) :
    jsonDumps (JValue.obj kvs) ≠ "<null>" := by
  rw [jsonDumps_obj_eq]
  intro h
  have h2 := congrArg String.data h
  rw [strDataAppend, strDataAppend] at h2
  have h3 : ("\x7b" : String).data = [Char.ofNat 123] := rfl
  have h4 : ("<null>" : String).data = '<' :: ['n', 'u', 'l', 'l', '>'] := rfl
  rw [h3, h4] at h2
  simp only [List.cons_append, List.nil_append] at h2
  injection h2 with h5 h6
  exact absurd h5 (by decide)

lemma pyStr_ne_sentinel (w : JValue) (hw : w ≠ JValue.str "<null>") :
    pyStr w ≠ "<null>" := by
  cases w with
  | null => decide
  | bool b => cases b <;> decide
  | int n => exact int_toString_ne_sentinel n
  | str s =>
      show s ≠ "<null>"
      intro h
      exact hw (by rw [h])
  | arr xs => exact pyRepr_arr_ne_sentinel xs
  | obj kvs => exact pyRepr_obj_ne_sentinel kvs

lemma firstIdHit_not_null :
    ∀ (ks : List String) (kvs : List (String × JValue)) (w : JValue),
      firstIdHit ks kvs = some w → isNullV w = false := by
  intro ks
  induction ks with
  | nil => intro kvs w h; simp [firstIdHit] at h
  | cons k rest ih =>
      intro kvs w h
      rw [firstIdHit] at h
      split at h
      · split at h
        · exact ih kvs w h
        · rename_i hcond
          injection h with h2
          rw [Bool.not_eq_true] at hcond
          exact h2 ▸ hcond
      · exact ih kvs w h

/-! ## Claim theorems -/

/-- Claim C1 (code bug): for the two-collection input with Asset first
and Buildings second, find_fk_candidates emits no candidate at all: the
field loop of line 152 is indented outside the collection loop of line
146, so only the sample of the final collection (Buildings) is scanned
and its only field id is skipped.  The second conjunct shows that with
the collections given in the opposite order, so that Asset is the final
binding, the candidate the claim expects does appear with an
intersection of size 1. -/
theorem overlap_finder_misindentation :
    find_fk_candidates
      [("Asset", [JValue.obj [("id", JValue.int 1), ("Building_Id", JValue.int 10)]]),
       ("Buildings", [JValue.obj [("id", JValue.int 10)]])] = some [] ∧
    find_fk_candidates
      [("Buildings", [JValue.obj [("id", JValue.int 10)]]),
       ("Asset", [JValue.obj [("id", JValue.int 1), ("Building_Id", JValue.int 10)]])]
      = some [⟨"Asset", "Building_Id", "Buildings", 1, ["10"], true⟩] :=
  ⟨rfl, rfl⟩

/-- Claim C4 (counterexample): the JSON string value whose content is
the sentinel text stringifies to the very same string the null sentinel
produces, while being a non-null value. -/
theorem stringify_sentinel_collision_cex :
    stringify (JValue.str "<null>") = stringify JValue.null ∧
    JValue.str "<null>" ≠ JValue.null :=
  ⟨rfl, fun h => JValue.noConfusion h⟩

/-- Claim C4 (amended): stringify of null is the sentinel string, and
every non-null value stringifies differently from it except a value
that itself carries the sentinel text: the string whose content is the
sentinel, or a dict whose first live id-like entry is that string. -/
theorem stringify_sentinel_amended (v : JValue)
    (h0 : v ≠ JValue.null)
    (h1 : v ≠ JValue.str "<null>")
    (h2 : ∀ kvs, v = JValue.obj kvs → firstIdHit idKeyList kvs ≠ some (JValue.str "<null>")) :
    stringify v ≠ stringify JValue.null := by
  have hs : stringify JValue.null = "<null>" := rfl
  rw [hs]
  cases v with
  | null => exact absurd rfl h0
  | bool b => cases b <;> decide
  | int n => exact int_toString_ne_sentinel n
  | str s =>
      show s ≠ "<null>"
      intro h
      exact h1 (by rw [h])
  | arr xs => exact jsonDumps_arr_ne_sentinel xs
  | obj kvs =>
      show (match firstIdHit idKeyList kvs with
            | some w => pyStr w
            | none => jsonDumps (JValue.obj kvs)) ≠ "<null>"
      cases hf : firstIdHit idKeyList kvs with
      | none => simp only [hf]; exact jsonDumps_obj_ne_sentinel kvs
      | some w =>
          simp only [hf]
          refine pyStr_ne_sentinel w ?_
          intro he
          exact h2 kvs rfl (he ▸ hf)

/-- Witness for the amended claim C4 at the integer five. -/
theorem stringify_sentinel_amended_witness :
    stringify (JValue.int 5) ≠ stringify JValue.null :=
  stringify_sentinel_amended (JValue.int 5) (fun h => JValue.noConfusion h)
    (fun h => JValue.noConfusion h) (fun _kvs h => JValue.noConfusion h)

/-- Claim C10: stringify maps true to True and false to False, distinct
from the stringifications of the integers 1 and 0 and of the strings 1
and 0, while an integer and the string form of the same integer always
stringify alike. -/
theorem stringify_bool_numeric_distinct :
    stringify (JValue.bool true) = "True" ∧
    stringify (JValue.bool false) = "False" ∧
    stringify (JValue.bool true) ≠ stringify (JValue.int 1) ∧
    stringify (JValue.bool false) ≠ stringify (JValue.int 0) ∧
    stringify (JValue.bool true) ≠ stringify (JValue.str "1") ∧
    stringify (JValue.bool false) ≠ stringify (JValue.str "0") ∧
    ∀ n : Int, stringify (JValue.int n) = stringify (JValue.str (toString n)) :=
  ⟨rfl, rfl, by decide, by decide, by decide, by decide, fun n => rfl⟩

/-- Claim C5: on the two-schema input with no path hints, the schema FK
candidate finder resolves Building_Id of Asset to the Buildings schema
through the suffix-strip and pluralization heuristic. -/
theorem schema_fk_building_id_eval :
    Analyze.find_candidate_fks
      [("Asset", ⟨[("Building_Id", some "integer")]⟩), ("Buildings", ⟨[]⟩)] []
      = [⟨"Asset", "Building_Id", some "Buildings", some "integer", false, "field_name"⟩] :=
  rfl

/-- Claim C6: a path template with a parameter segment yields exactly
its source-target pair, and one without a parameter segment yields
nothing. -/
theorem path_rel_extractor_eval :
    extractPathRels ["/Asset/\x7bid\x7d/End_User:get"] = [("Asset", ["End_User"])] ∧
    extractPathRels ["/Asset/End_User:get"] = [] :=
  ⟨rfl, rfl⟩

/-- Claim C3 (counterexample): with schemas inserted in the order Id,
Building, S, the property Building_Id of S is matched to Id, the first
containment match in insertion order, although Building precedes Id in
sorted order and also overlaps by containment. -/
theorem direct_match_insertion_order_cex :
    Analyze.find_candidate_fks
      [("Id", ⟨[]⟩), ("Building", ⟨[]⟩), ("S", ⟨[("Building_Id", some "integer")]⟩)] []
      = [⟨"S", "Building_Id", some "Id", some "integer", false, "field_name"⟩] ∧
    Analyze.mutualContains (Analyze.normalize "Building") (Analyze.normalize "Building_Id") = true ∧
    (some "Id" : Option String) ≠ some "Building" :=
  ⟨rfl, rfl, by decide⟩

/-- Claim C3 (amended): the direct containment step records the first
match in the iteration order of the norm_to_schema mapping, which is
schema insertion order, not sorted order: whenever the mapping splits
into a non-matching front, a matching entry and an arbitrary rest, the
matching entry is the one recorded. -/
lemma find?_skip_front {α : Type} (p : α → Bool) (front : List α) (x : α)
    (rest : List α) (hfront : ∀ y ∈ front, p y = false) (hx : p x = true) :
    List.find? p (front ++ x :: rest) = some x := by
  induction front with
  | nil => simp [hx]
  | cons a l ih =>
      have ha : p a = false := hfront a (by simp)
      rw [List.cons_append, List.find?_cons_of_neg _ (by simp [ha])]
      exact ih (fun y hy => hfront y (by simp [hy]))

theorem direct_match_first_in_iteration_order
    (front : List (String × String)) (x : String × String)
    (rest : List (String × String)) (pn : String)
    (hfront : ∀ y ∈ front, Analyze.mutualContains y.1 pn = false)
    (hx : Analyze.mutualContains x.1 pn = true) :
    Analyze.directMatch (front ++ x :: rest) pn = some x.2 := by
  unfold Analyze.directMatch
  rw [find?_skip_front (fun q => Analyze.mutualContains q.1 pn) front x rest hfront hx]
  rfl

/-- Witness for the amended claim C3: the second entry is recorded when
the first does not overlap. -/
theorem direct_match_first_in_iteration_order_witness :
    Analyze.directMatch [("x", "X"), ("b", "B")] "b" = some "B" :=
  direct_match_first_in_iteration_order [("x", "X")] ("b", "B") [] "b"
    (by intro y hy; simp at hy; rw [hy]; decide) (by decide)

/-- Claim C7 (counterexample): with a single collection whose sample
field x matches its own id set, the finder emits a candidate whose
from_collection equals its to_collection. -/
theorem overlap_self_collection_cex :
    find_fk_candidates [("A", [JValue.obj [("id", JValue.int 1), ("x", JValue.int 1)]])]
      = some [⟨"A", "x", "A", 1, ["1"], false⟩] ∧
    (OverlapCand.mk "A" "x" "A" 1 ["1"] false).from_collection
      = (OverlapCand.mk "A" "x" "A" 1 ["1"] false).to_collection :=
  ⟨rfl, rfl⟩

lemma overlapScan_mem (aName : String) (aItems : List JValue)
    (kvs : List (String × JValue)) (colIds : List (String × List String))
    (c : OverlapCand) (hc : c ∈ overlapScan aName aItems kvs colIds) :
    1 ≤ c.matchCount ∧ c.to_collection ∈ colIds.map Prod.fst := by
  unfold overlapScan at hc
  rw [List.mem_flatMap] at hc
  obtain ⟨field, hfield, hc2⟩ := hc
  split at hc2
  · simp at hc2
  · split at hc2
    · simp at hc2
    · unfold overlapForField at hc2
      rw [List.mem_filterMap] at hc2
      obtain ⟨p, hp, heq⟩ := hc2
      split at heq
      · exact absurd heq (by simp)
      · split at heq
        · exact absurd heq (by simp)
        · rename_i hinter
          injection heq with h2
          constructor
          · rw [← h2]
            have hne : ¬ interVals (fieldVals aItems field) p.2 = [] := by
              intro hnil
              rw [List.isEmpty_iff] at hinter
              exact hinter hnil
            exact List.length_pos.mpr hne
          · rw [← h2]
            exact List.mem_map.mpr ⟨p, hp, rfl⟩

/-- Claim C7 (amended): every candidate emitted by find_fk_candidates
has a positive intersection size and its to_collection is the name of
one of the collections of the input, the source collection itself not
excluded: from_collection may equal to_collection. -/
theorem overlap_candidate_targets (cols : List (String × List JValue))
    (res : List OverlapCand) (c : OverlapCand)
    (hres : find_fk_candidates cols = some res) (hc : c ∈ res) :
    1 ≤ c.matchCount ∧ c.to_collection ∈ cols.map Prod.fst := by
  unfold find_fk_candidates at hres
  split at hres
  · rename_i last kvs heq1 heq2
    injection hres with h2
    rw [← h2] at hc
    have h3 := overlapScan_mem _ _ _ _ c hc
    refine ⟨h3.1, ?_⟩
    have h4 := h3.2
    unfold colIdsOf at h4
    rw [List.map_map] at h4
    simpa using h4
  · exact absurd hres (by simp)

/-- Witness for the amended claim C7 at the single-collection input. -/
theorem overlap_candidate_targets_witness :
    1 ≤ (OverlapCand.mk "A" "x" "A" 1 ["1"] false).matchCount ∧
    (OverlapCand.mk "A" "x" "A" 1 ["1"] false).to_collection ∈
      ([("A", [JValue.obj [("id", JValue.int 1), ("x", JValue.int 1)]])].map Prod.fst) :=
  overlap_candidate_targets
    [("A", [JValue.obj [("id", JValue.int 1), ("x", JValue.int 1)]])]
    [⟨"A", "x", "A", 1, ["1"], false⟩] ⟨"A", "x", "A", 1, ["1"], false⟩
    rfl (List.mem_singleton_self _)

/-- Claim C2 (counterexample): the triple Asset.Building_Id against
Buildings is among the processed checks, yet a string FK value whose
content equals the numeric target id is scored with an empty match set:
the target id set is not coerced to strings for this field, and the
type heterogeneity produces a false negative. -/
theorem verify_no_coercion_for_building_id_cex :
    ("Asset", "Building_Id", "Buildings") ∈ fk_checks ∧
    extract_ids [JValue.obj [("id", JValue.int 10)]] = some [JValue.int 10] ∧
    verifyCheck [JValue.obj [("Building_Id", JValue.str "10")]] "Building_Id" [JValue.int 10]
      = some (VerifyResult.scored [] [JValue.str "10"] [JValue.str "10"] 0) ∧
    pyStr (JValue.int 10) = "10" :=
  ⟨List.mem_cons_self _ _, rfl, rfl, rfl⟩

/-- Claim C2 (amended): only a check whose field is Vendor_Id coerces
the target identifier set to strings before the intersection; for that
field a numeric target identifier matches the string form of the same
value held by the source record, for every integer value. -/
theorem vendor_id_check_coerces (n : Int) :
    verifyCheck [JValue.obj [("Vendor_Id", JValue.str (toString n))]] "Vendor_Id"
      [JValue.int n]
      = some (VerifyResult.scored [JValue.str (toString n)] []
          [JValue.str (toString n)] 0) := by
  simp [verifyCheck, fkValuesOf, nullCountOf, pyGet, isNullV, hashable, pyDedup,
    pyMem, pyEq, jsize, pyEqFuel, pyStr]

/-- Claim C8: the three cannot-verify situations of the verifier map to
the three distinct report outcomes in the order the code checks them,
and a scored outcome can only arise when none of the three situations
holds, so none of them is ever scored as a percentage. -/
theorem verify_cannot_verify_cases (src : List JValue) (field : String)
    (tIds : List JValue) :
    (src = [] → verifyCheck src field tIds = some VerifyResult.noSourceData) ∧
    (src ≠ [] → tIds = [] → verifyCheck src field tIds = some VerifyResult.noTargetIds) ∧
    (src ≠ [] → tIds ≠ [] → fkValuesOf src field = [] →
       verifyCheck src field tIds = some (VerifyResult.allNull (nullCountOf src field))) ∧
    (∀ m o fs nc, verifyCheck src field tIds = some (VerifyResult.scored m o fs nc) →
       src ≠ [] ∧ tIds ≠ [] ∧ fkValuesOf src field ≠ []) := by
  refine ⟨?_, ?_, ?_, ?_⟩
  · intro h
    subst h
    rfl
  · intro h1 h2
    subst h2
    cases src with
    | nil => exact absurd rfl h1
    | cons a l => rfl
  · intro h1 h2 h3
    cases src with
    | nil => exact absurd rfl h1
    | cons a l =>
        cases tIds with
        | nil => exact absurd rfl h2
        | cons b m =>
            unfold verifyCheck
            simp [h3]
  · intro m o fs nc h
    cases src with
    | nil => simp [verifyCheck] at h
    | cons a l =>
        cases tIds with
        | nil => simp [verifyCheck] at h
        | cons b t =>
            by_cases hv : fkValuesOf (a :: l) field = []
            · rw [show verifyCheck (a :: l) field (b :: t)
                    = some (VerifyResult.allNull (nullCountOf (a :: l) field)) from by
                  unfold verifyCheck; simp [hv]] at h
              injection h with h2
              exact absurd h2 (by simp)
            · exact ⟨by simp, by simp, hv⟩

/-- Witness for claim C8, one concrete input per cannot-verify case. -/
theorem verify_cannot_verify_cases_witness :
    verifyCheck [] "x" [] = some VerifyResult.noSourceData ∧
    verifyCheck [JValue.obj [("x", JValue.int 1)]] "x" [] = some VerifyResult.noTargetIds ∧
    verifyCheck [JValue.obj []] "x" [JValue.int 1]
      = some (VerifyResult.allNull (nullCountOf [JValue.obj []] "x")) :=
  ⟨(verify_cannot_verify_cases [] "x" []).1 rfl,
   (verify_cannot_verify_cases [JValue.obj [("x", JValue.int 1)]] "x" []).2.1
     (by simp) rfl,
   (verify_cannot_verify_cases [JValue.obj []] "x" [JValue.int 1]).2.2.1
     (by simp) (by simp) rfl⟩

lemma foldl_mem_preserve {α β : Type} (P : β → Prop) (step : List β → α → List β)
    (hstep : ∀ acc a x, (∀ y ∈ acc, P y) → x ∈ step acc a → P x) :
    ∀ (l : List α) (acc : List β), (∀ y ∈ acc, P y) → ∀ x ∈ l.foldl step acc, P x := by
  intro l
  induction l with
  | nil => intro acc hacc x hx; exact hacc x hx
  | cons a t ih =>
      intro acc hacc x hx
      exact ih (step acc a) (fun y hy => hstep acc a y hacc hy) x hx

lemma guess_shape_inv (sname prop : String) (mc : Option String × Bool)
    (pt : Option String) :
    ((Analyze.FkGuess.mk sname prop mc.1 pt mc.2
        (if mc.2 then "api_path" else "field_name")).confirmed_by_api = true ↔
       ((Analyze.FkGuess.mk sname prop mc.1 pt mc.2
           (if mc.2 then "api_path" else "field_name")).source = "api_path" ∨
        (Analyze.FkGuess.mk sname prop mc.1 pt mc.2
           (if mc.2 then "api_path" else "field_name")).source = "api_path_only")) ∧
    ((Analyze.FkGuess.mk sname prop mc.1 pt mc.2
        (if mc.2 then "api_path" else "field_name")).source = "field_name" ∨
     (Analyze.FkGuess.mk sname prop mc.1 pt mc.2
        (if mc.2 then "api_path" else "field_name")).source = "api_path" ∨
     (Analyze.FkGuess.mk sname prop mc.1 pt mc.2
        (if mc.2 then "api_path" else "field_name")).source = "api_path_only") := by
  rcases mc with ⟨mm, bb⟩
  cases bb <;> simp

lemma fieldCandidate_inv (normMap : List (String × String))
    (apiRels : List (String × List String)) (sname prop : String)
    (pt : Option String) (x : Analyze.FkGuess)
    (hx : x ∈ Analyze.fieldCandidate normMap apiRels sname prop pt) :
    (x.confirmed_by_api = true ↔ (x.source = "api_path" ∨ x.source = "api_path_only")) ∧
    (x.source = "field_name" ∨ x.source = "api_path" ∨ x.source = "api_path_only") := by
  unfold Analyze.fieldCandidate at hx
  split at hx
  · simp only [List.mem_singleton] at hx
    subst hx
    exact guess_shape_inv _ _ _ _
  · simp at hx

lemma addApiOnly_inv (apiRels : List (String × List String)) (sname : String)
    (acc : List Analyze.FkGuess)
    (hacc : ∀ y ∈ acc,
      (y.confirmed_by_api = true ↔ (y.source = "api_path" ∨ y.source = "api_path_only")) ∧
      (y.source = "field_name" ∨ y.source = "api_path" ∨ y.source = "api_path_only")) :
    ∀ x ∈ Analyze.addApiOnly apiRels sname acc,
      (x.confirmed_by_api = true ↔ (x.source = "api_path" ∨ x.source = "api_path_only")) ∧
      (x.source = "field_name" ∨ x.source = "api_path" ∨ x.source = "api_path_only") := by
  unfold Analyze.addApiOnly
  split
  · exact hacc
  · refine foldl_mem_preserve
      (fun y =>
        (y.confirmed_by_api = true ↔ (y.source = "api_path" ∨ y.source = "api_path_only")) ∧
        (y.source = "field_name" ∨ y.source = "api_path" ∨ y.source = "api_path_only"))
      _ ?_ _ acc hacc
    intro acc2 rel x hacc2 hx
    split at hx
    · exact hacc2 x hx
    · rcases List.mem_append.mp hx with h | h
      · exact hacc2 x h
      · rw [List.mem_singleton] at h
        subst h
        simp

/-- Claim C9: every record emitted by find_candidate_fks is marked
confirmed_by_api exactly when its source tag is api_path or
api_path_only, and the source tag is always one of field_name,
api_path, api_path_only: a field_name candidate is never marked as
API-confirmed. -/
theorem candidate_source_confirmed_invariant
    (schemas : List (String × Analyze.SchemaDef))
    (apiRels : List (String × List String)) (x : Analyze.FkGuess)
    (hx : x ∈ Analyze.find_candidate_fks schemas apiRels) :
    (x.confirmed_by_api = true ↔ (x.source = "api_path" ∨ x.source = "api_path_only")) ∧
    (x.source = "field_name" ∨ x.source = "api_path" ∨ x.source = "api_path_only") := by
  unfold Analyze.find_candidate_fks at hx
  refine foldl_mem_preserve
    (fun y =>
      (y.confirmed_by_api = true ↔ (y.source = "api_path" ∨ y.source = "api_path_only")) ∧
      (y.source = "field_name" ∨ y.source = "api_path" ∨ y.source = "api_path_only"))
    _ ?_ schemas [] (by simp) x hx
  intro acc p y hacc hy
  refine addApiOnly_inv apiRels p.1 _ ?_ y hy
  intro z hz
  rcases List.mem_append.mp hz with h | h
  · exact hacc z h
  · rw [List.mem_flatMap] at h
    obtain ⟨q, hq, h2⟩ := h
    exact fieldCandidate_inv _ apiRels p.1 q.1 q.2 z h2

/-- Witness for claim C9 at the two-schema input of claim C5. -/
theorem candidate_source_confirmed_invariant_witness :
    ((Analyze.FkGuess.mk "Asset" "Building_Id" (some "Buildings") (some "integer")
        false "field_name").confirmed_by_api = true ↔
      ((Analyze.FkGuess.mk "Asset" "Building_Id" (some "Buildings") (some "integer")
          false "field_name").source = "api_path" ∨
       (Analyze.FkGuess.mk "Asset" "Building_Id" (some "Buildings") (some "integer")
          false "field_name").source = "api_path_only")) ∧
    ((Analyze.FkGuess.mk "Asset" "Building_Id" (some "Buildings") (some "integer")
        false "field_name").source = "field_name" ∨
     (Analyze.FkGuess.mk "Asset" "Building_Id" (some "Buildings") (some "integer")
        false "field_name").source = "api_path" ∨
     (Analyze.FkGuess.mk "Asset" "Building_Id" (some "Buildings") (some "integer")
        false "field_name").source = "api_path_only") :=
  candidate_source_confirmed_invariant
    [("Asset", ⟨[("Building_Id", some "integer")]⟩), ("Buildings", ⟨[]⟩)] []
    (Analyze.FkGuess.mk "Asset" "Building_Id" (some "Buildings") (some "integer")
      false "field_name")
    (List.mem_singleton_self _)
